import Mathlib

/-!
Shallow embedding of the Chatroom message-freshness core.

Server side (src/models/user.js, the main controller IIFE):
the module-level variable lastServerUpdate is the freshness watermark;
the endpoints checkMessages, createMessage, updateMessage, deleteMessage,
getAllMessages and getMessagesByText are embedded as pure functions from
(server state, session, request data, current time) to
(server state, session, response).  Timestamps are naturals
(milliseconds since the epoch); the JS Date parser and the ISO renderer
are passed in as function parameters, since their exact string formats do
not matter to the protocol logic.

Client side (src/public/javascripts/main.js): the MessagingModule client
is embedded as pure functions over a ClientState holding the rendered
message list and the dataset.lastUpdate cursor.
-/

namespace Chatroom

/-- A registered user row (src/models/user.js, the User model): only the
columns the message endpoints read. -/
structure UserRec where
  id : Nat
  firstName : String
  lastName : String
deriving Repr, DecidableEq

/-- A message row (src/models/message.js): text, owner id, plus the
server-assigned id and creation timestamp. -/
structure Message where
  id : Nat
  text : String
  user_id : Nat
  createdAt : Nat
deriving Repr, DecidableEq

/-- The server state the message endpoints touch: the user table, the
message table, the module-level watermark lastServerUpdate
(src/models/user.js line 82), and the next auto-increment message id. -/
structure ServerState where
  users : List UserRec
  messages : List Message
  lastServerUpdate : Nat
  nextId : Nat
deriving Repr, DecidableEq

/-- The per-request session object: req.session.userId, and the
req.session.lastUpdate field that getAllMessages writes. -/
structure Session where
  userId : Option Nat
  lastUpdate : Option Nat
deriving Repr, DecidableEq

/-- requireAuth (src/models/user.js lines 531-536) rejects when
req.session.userId is JS-falsy: absent, null, or the number 0. -/
def authFail (session : Session) : Bool :=
  match session.userId with
  | none => true
  | some uid => uid == 0

/-- The Message model validation (src/models/message.js): text length
between 1 and 500. -/
def validText (t : String) : Bool :=
  decide (1 ≤ t.length ∧ t.length ≤ 500)

/-- Cursor parsing in checkMessages (src/models/user.js lines 488-500):
a missing header, an empty header (JS-falsy) or an unparseable date all
collapse to the epoch.  The JS Date parser is the parameter parse. -/
def parseLastUpdate (parse : String → Option Nat) : Option String → Nat
  | none => 0
  | some s => if s = "" then 0 else (parse s).getD 0

/-- User.findByPk / the include-join lookup of the message author. -/
def findUser (users : List UserRec) (uid : Nat) : Option UserRec :=
  users.find? (fun u => u.id == uid)

/-- A message record as returned by the read endpoints: the row plus the
derived fullName (src/models/user.js lines 287-290 and 455-458).  In the
source a missing author row would crash the map; the empty-name default
is only ever exercised under a missing author. -/
structure MessageView where
  id : Nat
  text : String
  user_id : Nat
  createdAt : Nat
  fullName : String
deriving Repr, DecidableEq

def toView (users : List UserRec) (m : Message) : MessageView :=
  { id := m.id, text := m.text, user_id := m.user_id, createdAt := m.createdAt,
    fullName :=
      match findUser users m.user_id with
      | some u => u.firstName ++ " " ++ u.lastName
      | none => "" }

/-- Response of GET /api/checkMessages. -/
inductive CheckResult where
  | unauthorized
  | ok (hasUpdates : Bool) (lastCheck : Nat)
deriving Repr, DecidableEq

/-- Response of POST /api/message. -/
inductive CreateResult where
  | unauthorized
  | badRequest (error : String)
  | created (m : Message)
deriving Repr, DecidableEq

/-- Response of PUT /api/message/:id.  serverError is the 500 sent when
Message.update throws; by the documented default of the store, update
validates the new values (text length 1..500) before matching rows. -/
inductive UpdateResult where
  | unauthorized
  | serverError
  | notFound
  | updated
deriving Repr, DecidableEq

/-- Response of DELETE /api/message/:id. -/
inductive DeleteResult where
  | unauthorized
  | notFound
  | deleted
deriving Repr, DecidableEq

/-- Response of GET /api/message and GET /api/searchMessagesByText. -/
inductive ListResult where
  | unauthorized
  | badRequest
  | okList (l : List MessageView)
deriving Repr, DecidableEq

/-- GET /api/checkMessages (src/models/user.js lines 486-515, behind
requireAuth): parse the Last-Update header with epoch fallback, compare
the watermark strictly against the cursor, report the comparison and the
current server time.  The ISO-8601 rendering of lastCheck is abstracted
to the timestamp value itself.  No state and no session field is
written. -/
def checkMessages (parse : String → Option Nat) (st : ServerState)
    (session : Session) (header : Option String) (now : Nat) :
    ServerState × Session × CheckResult :=
  if authFail session then (st, session, .unauthorized)
  else
    (st, session,
      .ok (decide (parseLastUpdate parse header < st.lastServerUpdate)) now)

/-- POST /api/message (src/models/user.js lines 381-402, behind
requireAuth): reject empty text with 400; reject an unknown user id with
400; a store validation throw (text longer than 500) is caught and sent
as 400; on success append the row, advance the watermark to now, answer
201 with the created row. -/
def createMessage (st : ServerState) (session : Session) (text : String)
    (now : Nat) : ServerState × Session × CreateResult :=
  if authFail session then (st, session, .unauthorized)
  else if text = "" then
    (st, session, .badRequest "Both text and user_id are required.")
  else
    match findUser st.users (session.userId.getD 0) with
    | none => (st, session, .badRequest "Invalid user_id")
    | some _ =>
      if validText text then
        ({ st with
            messages := st.messages ++
              [{ id := st.nextId, text := text,
                 user_id := session.userId.getD 0, createdAt := now }],
            lastServerUpdate := now,
            nextId := st.nextId + 1 },
         session,
         .created { id := st.nextId, text := text,
                    user_id := session.userId.getD 0, createdAt := now })
      else (st, session, .badRequest "Validation error")

/-- PUT /api/message/:id (src/models/user.js lines 341-359, behind
requireAuth): Message.update validates the new text first (invalid text
throws, caught as 500, nothing changes); then rows matching both the id
and the session user id are updated; zero matches answer 404; otherwise
the text is written and the watermark advanced to now. -/
def updateMessage (st : ServerState) (session : Session) (mid : Nat)
    (text : String) (now : Nat) : ServerState × Session × UpdateResult :=
  if authFail session then (st, session, .unauthorized)
  else if validText text then
    if st.messages.any (fun m =>
        m.id == mid && m.user_id == session.userId.getD 0) then
      ({ st with
          messages := st.messages.map (fun m =>
            if m.id == mid && m.user_id == session.userId.getD 0 then
              { m with text := text }
            else m),
          lastServerUpdate := now },
       session, .updated)
    else (st, session, .notFound)
  else (st, session, .serverError)

/-- DELETE /api/message/:id (src/models/user.js lines 312-326, behind
requireAuth): destroy rows matching both the id and the session user id;
zero matches answer 404; otherwise the rows are removed and the
watermark advanced to now. -/
def deleteMessage (st : ServerState) (session : Session) (mid : Nat)
    (now : Nat) : ServerState × Session × DeleteResult :=
  if authFail session then (st, session, .unauthorized)
  else if st.messages.any (fun m =>
      m.id == mid && m.user_id == session.userId.getD 0) then
    ({ st with
        messages := st.messages.filter (fun m =>
          !(m.id == mid && m.user_id == session.userId.getD 0)),
        lastServerUpdate := now },
     session, .deleted)
  else (st, session, .notFound)

/-- GET /api/message (src/models/user.js lines 277-297, behind
requireAuth): list all messages joined with the author name; also writes
req.session.lastUpdate to the current time. -/
def getAllMessages (st : ServerState) (session : Session) (now : Nat) :
    ServerState × Session × ListResult :=
  if authFail session then (st, session, .unauthorized)
  else
    (st, { session with lastUpdate := some now },
     .okList (st.messages.map (toView st.users)))

/-- Case-folded substring test on character lists: leadsWith checks a
pattern against the front, occursIn slides it along the text. -/
def leadsWith : List Char → List Char → Bool
  | [], _ => true
  | _ :: _, [] => false
  | a :: as, b :: bs => a == b && leadsWith as bs

def occursIn : List Char → List Char → Bool
  | q, [] => q.isEmpty
  | q, c :: rest => leadsWith q (c :: rest) || occursIn q rest

/-- Modelled from the spec: the read-by-text-substring call of the
external Message Store runs SQL LIKE with a %q% pattern
(src/models/user.js lines 443-448); the spec fixes its semantics as a
case-insensitive substring match (the store dialect configuration,
src/models/index.js, is not under src). -/
def likeContains (hay q : String) : Bool :=
  occursIn (q.data.map Char.toLower) (hay.data.map Char.toLower)

/-- GET /api/searchMessagesByText (src/models/user.js lines 435-465,
behind requireAuth): a missing or empty query answers 400; otherwise the
messages whose text matches LIKE %q% are returned in the same joined
shape as the full fetch.  Read-only, and the session is not written. -/
def getMessagesByText (st : ServerState) (session : Session)
    (q : Option String) : ServerState × Session × ListResult :=
  if authFail session then (st, session, .unauthorized)
  else
    match q with
    | none => (st, session, .badRequest)
    | some s =>
      if s = "" then (st, session, .badRequest)
      else
        (st, session,
         .okList ((st.messages.filter (fun m => likeContains m.text s)).map
           (toView st.users)))

/-! Client side: src/public/javascripts/main.js. -/

/-- The rendered message list (displayMessages, lines 306-318): an empty
sequence is rendered as the No-messages-found placeholder. -/
inductive Rendered where
  | noMessages
  | items (l : List MessageView)
deriving Repr, DecidableEq

/-- The client state the polling protocol touches: the rendered list and
the dataset.lastUpdate cursor (none before the first fetch). -/
structure ClientState where
  displayed : Rendered
  cursor : Option Nat
deriving Repr, DecidableEq

def displayMessages (l : List MessageView) : Rendered :=
  if l.isEmpty then .noMessages else .items l

/-- The JS string trim used by the client input handlers, written over
the character list so that it evaluates on concrete inputs. -/
def jsTrim (s : String) : String :=
  String.mk
    (((s.data.dropWhile Char.isWhitespace).reverse.dropWhile
      Char.isWhitespace).reverse)

/-- fetchMessages (lines 250-261): GET /api/message, display whatever
array comes back (a non-array body, e.g. the 401 body, degrades to the
empty list), then stamp the cursor with the local completion time.  The
response status is not consulted.  serverNow is the server clock during
the request, clientNow the local clock when the refetch completed. -/
def fetchMessagesClient (st : ServerState) (session : Session)
    (_cs : ClientState) (serverNow clientNow : Nat) : Session × ClientState :=
  match getAllMessages st session serverNow with
  | (_, session1, .okList l) =>
    (session1, { displayed := displayMessages l, cursor := some clientNow })
  | (_, session1, _) =>
    (session1, { displayed := displayMessages [], cursor := some clientNow })

/-- searchMessagesByText (lines 272-294): GET /api/searchMessagesByText;
on a 2xx answer display the matches without touching the cursor; on an
error status throw, notify, and fall back to a full fetchMessages. -/
def searchMessagesByTextClient (st : ServerState) (session : Session)
    (cs : ClientState) (q : String) (serverNow clientNow : Nat) :
    Session × ClientState :=
  match getMessagesByText st session (some q) with
  | (_, session1, .okList l) =>
    (session1, { cs with displayed := displayMessages l })
  | (_, session1, _) => fetchMessagesClient st session1 cs serverNow clientNow

/-- Outcome of one checkForNewMessages polling cycle. -/
structure CycleResult where
  session : Session
  client : ClientState
  redirected : Bool
  endpointCalled : Bool
  refetched : Bool
deriving Repr, DecidableEq

/-- checkForNewMessages (lines 509-533): first awaits checkSession
(lines 64-78), which redirects to the login page when verifyUserSession
reports unauthenticated — but whose boolean result the cycle never
consults; the cycle then always performs the GET /api/checkMessages
call, sending the held cursor rendered through render, or the literal
string 0 when no cursor is held.  A non-2xx answer throws and is caught,
ending the cycle without a refetch; hasUpdates triggers fetchMessages.
render is the ISO renderer for the cursor, parse the server-side JS Date
parser; serverNow is the server clock at the check, fetchServerNow the
server clock at the refetch, clientNow the local clock when the refetch
completed. -/
def checkForNewMessages (parse : String → Option Nat) (render : Nat → String)
    (st : ServerState) (session : Session) (cs : ClientState)
    (serverNow fetchServerNow clientNow : Nat) : CycleResult :=
  match checkMessages parse st session
      (some ((cs.cursor.map render).getD "0")) serverNow with
  | (_, session1, .unauthorized) =>
    { session := session1, client := cs, redirected := authFail session,
      endpointCalled := true, refetched := false }
  | (_, session1, .ok hasUpdates _) =>
    if hasUpdates then
      { session := (fetchMessagesClient st session1 cs fetchServerNow clientNow).1,
        client := (fetchMessagesClient st session1 cs fetchServerNow clientNow).2,
        redirected := authFail session,
        endpointCalled := true, refetched := true }
    else
      { session := session1, client := cs, redirected := authFail session,
        endpointCalled := true, refetched := false }

/-- Outcome of a client-initiated mutation (send, edit or delete). -/
structure MutCycle where
  server : ServerState
  session : Session
  client : ClientState
  success : Bool
deriving Repr, DecidableEq

/-- sendMessage (lines 94-114): POST /api/message; on a 2xx answer clear
the list, await fetchMessages, notify; on an error only notify. -/
def sendMessageClient (st : ServerState) (session : Session)
    (cs : ClientState) (text : String)
    (serverNow fetchServerNow clientNow : Nat) : MutCycle :=
  match createMessage st session text serverNow with
  | (st1, session1, .created _) =>
    { server := st1,
      session := (fetchMessagesClient st1 session1 cs fetchServerNow clientNow).1,
      client := (fetchMessagesClient st1 session1 cs fetchServerNow clientNow).2,
      success := true }
  | (st1, session1, _) =>
    { server := st1, session := session1, client := cs, success := false }

/-- saveUpdatedMessage (lines 205-233): the trimmed input is rejected
locally when empty (notification, no request); otherwise PUT
/api/message/:id and, on a 2xx answer, a full fetchMessages. -/
def saveUpdatedMessageClient (st : ServerState) (session : Session)
    (cs : ClientState) (mid : Nat) (rawText : String)
    (serverNow fetchServerNow clientNow : Nat) : MutCycle :=
  if jsTrim rawText = "" then
    { server := st, session := session, client := cs, success := false }
  else
    match updateMessage st session mid (jsTrim rawText) serverNow with
    | (st1, session1, .updated) =>
      { server := st1,
        session := (fetchMessagesClient st1 session1 cs fetchServerNow clientNow).1,
        client := (fetchMessagesClient st1 session1 cs fetchServerNow clientNow).2,
        success := true }
    | (st1, session1, _) =>
      { server := st1, session := session1, client := cs, success := false }

/-- deleteMessage on the client (lines 131-151): DELETE /api/message/:id
and, on a 2xx answer, a full fetchMessages. -/
def deleteMessageClient (st : ServerState) (session : Session)
    (cs : ClientState) (mid : Nat)
    (serverNow fetchServerNow clientNow : Nat) : MutCycle :=
  match deleteMessage st session mid serverNow with
  | (st1, session1, .deleted) =>
    { server := st1,
      session := (fetchMessagesClient st1 session1 cs fetchServerNow clientNow).1,
      client := (fetchMessagesClient st1 session1 cs fetchServerNow clientNow).2,
      success := true }
  | (st1, session1, _) =>
    { server := st1, session := session1, client := cs, success := false }

/-! Operation traces over the server state, for the watermark
invariant. -/

/-- One server request, with the session it arrives under. -/
inductive Op where
  | create (session : Session) (text : String)
  | update (session : Session) (mid : Nat) (text : String)
  | delete (session : Session) (mid : Nat)
  | check (session : Session) (header : Option String)
  | fetchAll (session : Session)
  | search (session : Session) (q : Option String)
deriving Repr

/-- The server-state transition of one request arriving at time now. -/
def step (parse : String → Option Nat) (st : ServerState) :
    Op → Nat → ServerState
  | .create s t, now => (createMessage st s t now).1
  | .update s m t, now => (updateMessage st s m t now).1
  | .delete s m, now => (deleteMessage st s m now).1
  | .check s h, now => (checkMessages parse st s h now).1
  | .fetchAll s, now => (getAllMessages st s now).1
  | .search s q, _ => (getMessagesByText st s q).1

/-- The watermark values observed along a trace of requests, starting
with the initial one. -/
def watermarks (parse : String → Option Nat) :
    ServerState → List (Op × Nat) → List Nat
  | st, [] => [st.lastServerUpdate]
  | st, p :: rest => st.lastServerUpdate :: watermarks parse (step parse st p.1 p.2) rest

/-- Executable non-decreasing test on a list of timestamps, used to
evaluate monotonicity on concrete traces. -/
def chainLE : List Nat → Bool
  | [] => true
  | [_] => true
  | a :: b :: rest => decide (a ≤ b) && chainLE (b :: rest)

/-! Concrete fixtures used by witnesses and counterexamples. -/

def alice : UserRec := { id := 1, firstName := "Alice", lastName := "Smith" }

def bob : UserRec := { id := 2, firstName := "Bob", lastName := "Jones" }

def msgHello : Message := { id := 1, text := "Hello world", user_id := 1, createdAt := 10 }

def msgBye : Message := { id := 2, text := "Goodbye", user_id := 2, createdAt := 20 }

def exState : ServerState :=
  { users := [alice, bob], messages := [msgHello, msgBye],
    lastServerUpdate := 20, nextId := 3 }

def aliceSession : Session := { userId := some 1, lastUpdate := none }

def noSession : Session := { userId := none, lastUpdate := none }

def exClient : ClientState := { displayed := .noMessages, cursor := some 15 }

/-- A concrete timestamp codec standing in for Date parsing and ISO
rendering in witnesses: a timestamp n is rendered as n copies of the
letter x, and any other string fails to parse.  The theorems themselves
are stated for arbitrary parse and render functions. -/
def natRender : Nat → String := fun n => String.mk (List.replicate n 'x')

def natParse : String → Option Nat := fun s =>
  if s.data.isEmpty then none
  else if s.data.all (fun c => c = 'x') then some s.data.length
  else none

end Chatroom

namespace Chatroom

/-! Theorems. -/

/-- C1: for every poll request to checkMessages from an authenticated
session, the response is the pair of a hasUpdates boolean that is true
exactly when the watermark is strictly greater than the parsed
Last-Update cursor, and of lastCheck, the server time of this check;
the server state and the session are left as they were. -/
theorem checkMessages_authed_response (parse : String → Option Nat)
    (st : ServerState) (session : Session) (header : Option String) (now : Nat)
    (hauth : authFail session = false) :
    ∃ h : Bool,
      checkMessages parse st session header now = (st, session, .ok h now) ∧
      (h = true ↔ parseLastUpdate parse header < st.lastServerUpdate) := by
  refine ⟨decide (parseLastUpdate parse header < st.lastServerUpdate), ?_, ?_⟩
  · simp [checkMessages, hauth]
  · simp

theorem checkMessages_authed_response_witness :
    authFail aliceSession = false ∧
    ∃ h : Bool,
      checkMessages natParse exState aliceSession (some "xxxxx") 500 =
        (exState, aliceSession, .ok h 500) ∧
      (h = true ↔ parseLastUpdate natParse (some "xxxxx") < exState.lastServerUpdate) :=
  ⟨by decide,
   checkMessages_authed_response natParse exState aliceSession (some "xxxxx") 500
     (by decide)⟩

/-- C2: a poll whose Last-Update header is absent, empty or unparseable
is treated as the epoch cursor, and whenever the watermark is after the
epoch the endpoint reports hasUpdates = true rather than failing. -/
theorem checkMessages_malformed_cursor_epoch (parse : String → Option Nat)
    (st : ServerState) (session : Session) (header : Option String) (now : Nat)
    (hauth : authFail session = false)
    (hbad : header = none ∨ ∃ s, header = some s ∧ (s = "" ∨ parse s = none)) :
    parseLastUpdate parse header = 0 ∧
    (0 < st.lastServerUpdate →
      checkMessages parse st session header now = (st, session, .ok true now)) := by
  have hp : parseLastUpdate parse header = 0 := by
    rcases hbad with h | ⟨s, rfl, h | h⟩
    · simp [h, parseLastUpdate]
    · simp [parseLastUpdate, h]
    · simp [parseLastUpdate, h]
  refine ⟨hp, fun hw => ?_⟩
  simp [checkMessages, hauth, hp, hw]

theorem checkMessages_malformed_cursor_epoch_witness :
    authFail aliceSession = false ∧
    (some "not-a-date" = none ∨
      ∃ s, some "not-a-date" = some s ∧ (s = "" ∨ natParse s = none)) ∧
    parseLastUpdate natParse (some "not-a-date") = 0 ∧
    (0 < exState.lastServerUpdate →
      checkMessages natParse exState aliceSession (some "not-a-date") 500 =
        (exState, aliceSession, .ok true 500)) :=
  ⟨by decide, by decide,
   checkMessages_malformed_cursor_epoch natParse exState aliceSession
     (some "not-a-date") 500 (by decide) (by decide)⟩

/-- C4: checkMessages is read-only: the server state (hence the
watermark) and the session come back unchanged, any number of repeated
polls leaves the state fixed, and once the parsed cursor is at or after
the watermark the answer is hasUpdates = false. -/
theorem checkMessages_readonly_idempotent (parse : String → Option Nat)
    (st : ServerState) (session : Session) (header : Option String) (now : Nat) :
    (checkMessages parse st session header now).1 = st ∧
    (checkMessages parse st session header now).2.1 = session ∧
    (∀ n : Nat, (fun s => (checkMessages parse s session header now).1)^[n] st = st) ∧
    (authFail session = false →
      st.lastServerUpdate ≤ parseLastUpdate parse header →
      (checkMessages parse st session header now).2.2 = .ok false now) := by
  have h1 : (checkMessages parse st session header now).1 = st := by
    unfold checkMessages
    split <;> rfl
  have h2 : (checkMessages parse st session header now).2.1 = session := by
    unfold checkMessages
    split <;> rfl
  refine ⟨h1, h2, ?_, ?_⟩
  · intro n
    exact Function.iterate_fixed (by unfold checkMessages; split <;> rfl) n
  · intro hauth hle
    have hlt : ¬ parseLastUpdate parse header < st.lastServerUpdate :=
      not_lt.2 hle
    simp [checkMessages, hauth, hlt]

theorem checkMessages_readonly_idempotent_witness :
    authFail aliceSession = false ∧
    exState.lastServerUpdate ≤ parseLastUpdate natParse (some (natRender 25)) ∧
    (checkMessages natParse exState aliceSession (some (natRender 25)) 7).2.2 =
      CheckResult.ok false 7 :=
  ⟨by decide, by decide,
   (checkMessages_readonly_idempotent natParse exState aliceSession
     (some (natRender 25)) 7).2.2.2 (by decide) (by decide)⟩

/-- C9 counterexample: a polling cycle under an invalid session both
initiates the redirect and still performs the GET /api/checkMessages
call — checkForNewMessages never consults the boolean that checkSession
returns, so the endpoint call is not skipped. -/
theorem poll_invalid_session_calls_endpoint_cex :
    authFail noSession = true ∧
    (checkForNewMessages natParse natRender exState noSession exClient
      400 410 420).redirected = true ∧
    (checkForNewMessages natParse natRender exState noSession exClient
      400 410 420).endpointCalled = true := by
  decide

/-- C9 amended: the cycle re-validates the session first and, when it is
invalid, initiates the redirect to the login page — but it does not
abort: the polling endpoint call is still performed, answers 401, and
the cycle then ends without a refetch, leaving the client state and the
session unchanged. -/
theorem poll_invalid_session_cycle (parse : String → Option Nat)
    (render : Nat → String) (st : ServerState) (session : Session)
    (cs : ClientState) (serverNow fetchServerNow clientNow : Nat)
    (h : authFail session = true) :
    checkForNewMessages parse render st session cs serverNow fetchServerNow
        clientNow =
      { session := session, client := cs, redirected := true,
        endpointCalled := true, refetched := false } := by
  simp [checkForNewMessages, checkMessages, h]

theorem poll_invalid_session_cycle_witness :
    authFail noSession = true ∧
    checkForNewMessages natParse natRender exState noSession exClient
        400 410 420 =
      { session := noSession, client := exClient, redirected := true,
        endpointCalled := true, refetched := false } :=
  ⟨by decide,
   poll_invalid_session_cycle natParse natRender exState noSession exClient
     400 410 420 (by decide)⟩

/-- C10 counterexample: alice (user 1) sends an update naming message 2,
which belongs to bob (user 2): with an empty new text the store
validation throws before the owner match is consulted, so the server
answers 500, not the 404 Message-not-found the claim states. -/
theorem nonowned_update_invalid_text_cex :
    (∀ m ∈ exState.messages, ¬(m.id = 2 ∧ m.user_id = 1)) ∧
    aliceSession.userId = some 1 ∧
    (updateMessage exState aliceSession 2 "" 500).2.2 = UpdateResult.serverError ∧
    (updateMessage exState aliceSession 2 "" 500).2.2 ≠ UpdateResult.notFound := by
  decide

/-- C10 amended: for an authenticated user naming a message id that the
user does not own, a delete answers 404 Message-not-found with the
message set and the watermark unchanged, and an update does so whenever
the new text passes validation; an update whose text fails validation
answers 500 instead, also leaving everything unchanged. -/
theorem nonowned_mutations_not_found (st : ServerState) (session : Session)
    (mid : Nat) (text : String) (now : Nat)
    (hauth : authFail session = false)
    (hnone : st.messages.any
      (fun m => m.id == mid && m.user_id == session.userId.getD 0) = false) :
    deleteMessage st session mid now = (st, session, .notFound) ∧
    (validText text = true →
      updateMessage st session mid text now = (st, session, .notFound)) ∧
    (validText text = false →
      updateMessage st session mid text now = (st, session, .serverError)) := by
  refine ⟨?_, ?_, ?_⟩
  · simp [deleteMessage, hauth, hnone]
  · intro hv
    simp [updateMessage, hauth, hnone, hv]
  · intro hv
    simp [updateMessage, hauth, hv]

theorem nonowned_mutations_not_found_witness :
    authFail aliceSession = false ∧
    exState.messages.any
      (fun m => m.id == 2 && m.user_id == aliceSession.userId.getD 0) = false ∧
    validText "ok" = true ∧
    deleteMessage exState aliceSession 2 500 = (exState, aliceSession, .notFound) ∧
    updateMessage exState aliceSession 2 "ok" 500 =
      (exState, aliceSession, .notFound) :=
  ⟨by decide, by decide, by decide,
   (nonowned_mutations_not_found exState aliceSession 2 "ok" 500
     (by decide) (by decide)).1,
   (nonowned_mutations_not_found exState aliceSession 2 "ok" 500
     (by decide) (by decide)).2.1 (by decide)⟩

/-- Helper: one server request either leaves the watermark alone or
stamps it with the request arrival time. -/
theorem step_watermark (parse : String → Option Nat) (st : ServerState)
    (op : Op) (now : Nat) :
    (step parse st op now).lastServerUpdate = st.lastServerUpdate ∨
    (step parse st op now).lastServerUpdate = now := by
  cases op <;>
    simp only [step, createMessage, updateMessage, deleteMessage,
      checkMessages, getAllMessages, getMessagesByText] <;>
    repeat' split
  all_goals first | (left; rfl) | (right; rfl)

/-- Helper: the watermark trace starts with the initial watermark. -/
theorem watermarks_head (parse : String → Option Nat) (st : ServerState)
    (ops : List (Op × Nat)) :
    ∃ t, watermarks parse st ops = st.lastServerUpdate :: t := by
  cases ops <;> exact ⟨_, rfl⟩

/-- Helper: along a trace whose arrival times are non-decreasing and
never precede the initial watermark, the observed watermark values form
a non-decreasing chain. -/
theorem watermarks_chain (parse : String → Option Nat) :
    ∀ (ops : List (Op × Nat)) (st : ServerState),
      List.Chain' (· ≤ ·) (st.lastServerUpdate :: ops.map Prod.snd) →
      List.Chain' (· ≤ ·) (watermarks parse st ops)
  | [], st, _ => by simp [watermarks]
  | (op, now) :: rest, st, h => by
    rw [List.map_cons, List.chain'_cons] at h
    obtain ⟨h₀, h₁⟩ := h
    have hw := step_watermark parse st op now
    have hle : (step parse st op now).lastServerUpdate ≤ now := by
      rcases hw with h' | h'
      · rw [h']; exact h₀
      · rw [h']
    have hge : st.lastServerUpdate ≤ (step parse st op now).lastServerUpdate := by
      rcases hw with h' | h'
      · rw [h']
      · rw [h']; exact h₀
    have h₁' : List.Chain' (· ≤ ·)
        ((step parse st op now).lastServerUpdate :: rest.map Prod.snd) := by
      rcases rest with _ | ⟨q, qs⟩
      · simp
      · rw [List.map_cons, List.chain'_cons] at h₁ ⊢
        exact ⟨le_trans hle h₁.1, h₁.2⟩
    have ih := watermarks_chain parse rest (step parse st op now) h₁'
    obtain ⟨t, ht⟩ := watermarks_head parse (step parse st op now) rest
    show List.Chain' (· ≤ ·)
      (st.lastServerUpdate :: watermarks parse (step parse st op now) rest)
    rw [ht] at ih ⊢
    exact List.chain'_cons.mpr ⟨hge, ih⟩

/-- Helper: the executable chain test agrees with List.Chain'. -/
theorem chainLE_iff (l : List Nat) :
    chainLE l = true ↔ List.Chain' (· ≤ ·) l := by
  induction l with
  | nil => simp [chainLE]
  | cons a rest ih =>
    cases rest with
    | nil => simp [chainLE]
    | cons b bs =>
      rw [List.chain'_cons, ← ih]
      simp [chainLE]

/-- C3: every successful create, update or delete stamps the watermark
with the current time, and along any trace of requests whose arrival
times are non-decreasing (and do not precede the initial watermark) the
watermark is monotonically non-decreasing. -/
theorem watermark_advance_monotone (parse : String → Option Nat) :
    (∀ st session text now m,
      (createMessage st session text now).2.2 = CreateResult.created m →
      (createMessage st session text now).1.lastServerUpdate = now) ∧
    (∀ st session mid text now,
      (updateMessage st session mid text now).2.2 = UpdateResult.updated →
      (updateMessage st session mid text now).1.lastServerUpdate = now) ∧
    (∀ st session mid now,
      (deleteMessage st session mid now).2.2 = DeleteResult.deleted →
      (deleteMessage st session mid now).1.lastServerUpdate = now) ∧
    (∀ (st : ServerState) (ops : List (Op × Nat)),
      List.Chain' (· ≤ ·) (st.lastServerUpdate :: ops.map Prod.snd) →
      List.Chain' (· ≤ ·) (watermarks parse st ops)) := by
  refine ⟨?_, ?_, ?_, fun st ops h => watermarks_chain parse ops st h⟩
  · intro st session text now m h
    unfold createMessage at h ⊢
    repeat' split at h
    all_goals simp_all
  · intro st session mid text now h
    unfold updateMessage at h ⊢
    repeat' split at h
    all_goals simp_all
  · intro st session mid now h
    unfold deleteMessage at h ⊢
    repeat' split at h
    all_goals simp_all

theorem watermark_advance_monotone_witness :
    (createMessage exState aliceSession "hi" 30).2.2 =
      CreateResult.created { id := 3, text := "hi", user_id := 1, createdAt := 30 } ∧
    (createMessage exState aliceSession "hi" 30).1.lastServerUpdate = 30 ∧
    List.Chain' (· ≤ ·) (exState.lastServerUpdate ::
      ([(Op.create aliceSession "hi", 30), (Op.check aliceSession none, 31),
        (Op.delete aliceSession 1, 33)].map Prod.snd)) ∧
    List.Chain' (· ≤ ·) (watermarks natParse exState
      [(Op.create aliceSession "hi", 30), (Op.check aliceSession none, 31),
       (Op.delete aliceSession 1, 33)]) :=
  ⟨by decide,
   (watermark_advance_monotone natParse).1 exState aliceSession "hi" 30
     { id := 3, text := "hi", user_id := 1, createdAt := 30 } (by decide),
   (chainLE_iff _).mp (by decide),
   (watermark_advance_monotone natParse).2.2.2 exState
     [(Op.create aliceSession "hi", 30), (Op.check aliceSession none, 31),
      (Op.delete aliceSession 1, 33)] ((chainLE_iff _).mp (by decide))⟩

/-- Helper: under a valid session, a client full fetch displays the
whole joined message list, stamps the cursor with the local completion
time, and the server writes session.lastUpdate. -/
theorem fetchMessagesClient_authed (st : ServerState) (session : Session)
    (cs : ClientState) (serverNow clientNow : Nat)
    (h : authFail session = false) :
    fetchMessagesClient st session cs serverNow clientNow =
      ({ session with lastUpdate := some serverNow },
       { displayed := displayMessages (st.messages.map (toView st.users)),
         cursor := some clientNow }) := by
  simp [fetchMessagesClient, getAllMessages, h]

/-- C5: when the poll endpoint signals updates, the cycle refetches: the
displayed set is replaced wholesale by the full joined fetch of the
server message set, and the cursor is stamped with the local time at
which the refetch completed — in particular it differs from the
server-reported check time whenever those two values differ. -/
theorem poll_updates_refetch_replaces (parse : String → Option Nat)
    (render : Nat → String) (st : ServerState) (session : Session)
    (cs : ClientState) (serverNow fetchServerNow clientNow : Nat)
    (hauth : authFail session = false)
    (hupd : parseLastUpdate parse (some ((cs.cursor.map render).getD "0")) <
      st.lastServerUpdate) :
    (checkForNewMessages parse render st session cs serverNow fetchServerNow
        clientNow).refetched = true ∧
    (checkForNewMessages parse render st session cs serverNow fetchServerNow
        clientNow).client.displayed =
      displayMessages (st.messages.map (toView st.users)) ∧
    (checkForNewMessages parse render st session cs serverNow fetchServerNow
        clientNow).client.cursor = some clientNow ∧
    (clientNow ≠ serverNow →
      (checkForNewMessages parse render st session cs serverNow fetchServerNow
        clientNow).client.cursor ≠ some serverNow) := by
  have hd : decide (parseLastUpdate parse
      (some ((cs.cursor.map render).getD "0")) < st.lastServerUpdate) = true :=
    decide_eq_true hupd
  refine ⟨?_, ?_, ?_, ?_⟩ <;>
    simp [checkForNewMessages, checkMessages, hauth, hd,
      fetchMessagesClient_authed st session cs fetchServerNow clientNow hauth]

theorem poll_updates_refetch_replaces_witness :
    authFail aliceSession = false ∧
    parseLastUpdate natParse (some ((exClient.cursor.map natRender).getD "0")) <
      exState.lastServerUpdate ∧
    (checkForNewMessages natParse natRender exState aliceSession exClient
      400 410 420).client.cursor = some 420 ∧
    (checkForNewMessages natParse natRender exState aliceSession exClient
      400 410 420).client.displayed =
      displayMessages (exState.messages.map (toView exState.users)) :=
  ⟨by decide, by decide,
   (poll_updates_refetch_replaces natParse natRender exState aliceSession
     exClient 400 410 420 (by decide) (by decide)).2.2.1,
   (poll_updates_refetch_replaces natParse natRender exState aliceSession
     exClient 400 410 420 (by decide) (by decide)).2.1⟩

/-- C7: a mutating call whose input fails validation is rejected with a
user-visible error and changes nothing: a create with empty or overlong
text answers 400 and leaves the state (hence the watermark) unchanged;
an update with invalid text answers 500 and leaves everything unchanged;
and the client-side edit path rejects an all-whitespace text locally
with a notification, issuing no request at all. -/
theorem validation_failure_no_advance :
    (∀ st session text now, authFail session = false → validText text = false →
      (createMessage st session text now).1 = st ∧
      ∃ e, (createMessage st session text now).2.2 = CreateResult.badRequest e) ∧
    (∀ st session mid text now, authFail session = false →
      validText text = false →
      updateMessage st session mid text now = (st, session, .serverError)) ∧
    (∀ st session cs mid rawText serverNow fetchServerNow clientNow,
      jsTrim rawText = "" →
      saveUpdatedMessageClient st session cs mid rawText serverNow
          fetchServerNow clientNow =
        { server := st, session := session, client := cs, success := false }) := by
  refine ⟨?_, ?_, ?_⟩
  · intro st session text now hauth hv
    by_cases ht : text = ""
    · simp [createMessage, hauth, ht]
    · cases hfu : findUser st.users (session.userId.getD 0) with
      | none => simp [createMessage, hauth, ht, hfu]
      | some u => simp [createMessage, hauth, ht, hfu, hv]
  · intro st session mid text now hauth hv
    simp [updateMessage, hauth, hv]
  · intro st session cs mid rawText serverNow fetchServerNow clientNow ht
    simp [saveUpdatedMessageClient, ht]

theorem validation_failure_no_advance_witness :
    authFail aliceSession = false ∧
    validText "" = false ∧
    (createMessage exState aliceSession "" 500).1 = exState ∧
    (∃ e, (createMessage exState aliceSession "" 500).2.2 =
      CreateResult.badRequest e) ∧
    updateMessage exState aliceSession 1 "" 500 =
      (exState, aliceSession, .serverError) ∧
    saveUpdatedMessageClient exState aliceSession exClient 1 "" 500 510 520 =
      { server := exState, session := aliceSession, client := exClient,
        success := false } :=
  ⟨by decide, by decide,
   (validation_failure_no_advance.1 exState aliceSession "" 500
     (by decide) (by decide)).1,
   (validation_failure_no_advance.1 exState aliceSession "" 500
     (by decide) (by decide)).2,
   validation_failure_no_advance.2.1 exState aliceSession 1 "" 500
     (by decide) (by decide),
   validation_failure_no_advance.2.2 exState aliceSession exClient 1 "" 500 510 520
     (by decide)⟩

/-- Helper: a successful create is fully determined — the session was
valid, the created row is the appended one, and the new state appends it
and stamps the watermark. -/
theorem createMessage_created (st : ServerState) (session : Session)
    (text : String) (now : Nat) (m : Message)
    (h : (createMessage st session text now).2.2 = CreateResult.created m) :
    authFail session = false ∧
    m = { id := st.nextId, text := text,
          user_id := session.userId.getD 0, createdAt := now } ∧
    createMessage st session text now =
      ({ st with messages := st.messages ++ [m],
                 lastServerUpdate := now, nextId := st.nextId + 1 },
       session, .created m) := by
  unfold createMessage at h ⊢
  repeat' split at h
  all_goals simp_all

/-- Helper: a successful update is fully determined — the session was
valid, the text valid, and the new state rewrites the owned row and
stamps the watermark. -/
theorem updateMessage_updated (st : ServerState) (session : Session)
    (mid : Nat) (text : String) (now : Nat)
    (h : (updateMessage st session mid text now).2.2 = UpdateResult.updated) :
    authFail session = false ∧ validText text = true ∧
    updateMessage st session mid text now =
      ({ st with
          messages := st.messages.map (fun m =>
            if m.id == mid && m.user_id == session.userId.getD 0 then
              { m with text := text }
            else m),
          lastServerUpdate := now },
       session, .updated) := by
  unfold updateMessage at h ⊢
  repeat' split at h
  all_goals simp_all

/-- Helper: a successful delete is fully determined — the session was
valid and the new state drops the owned rows and stamps the
watermark. -/
theorem deleteMessage_deleted (st : ServerState) (session : Session)
    (mid : Nat) (now : Nat)
    (h : (deleteMessage st session mid now).2.2 = DeleteResult.deleted) :
    authFail session = false ∧
    deleteMessage st session mid now =
      ({ st with
          messages := st.messages.filter (fun m =>
            !(m.id == mid && m.user_id == session.userId.getD 0)),
          lastServerUpdate := now },
       session, .deleted) := by
  unfold deleteMessage at h ⊢
  repeat' split at h
  all_goals simp_all

/-- Helper: after the update map, every row matching the id and owner
carries the new text. -/
theorem updated_text_in_map (msgs : List Message) (mid uid : Nat) (t : String) :
    ∀ m ∈ msgs.map (fun m =>
      if m.id == mid && m.user_id == uid then { m with text := t } else m),
      m.id = mid → m.user_id = uid → m.text = t := by
  intro m hm h1 h2
  obtain ⟨a, ha, rfl⟩ := List.mem_map.mp hm
  by_cases hc : (a.id == mid && a.user_id == uid) = true
  · rw [if_pos hc]
  · rw [if_neg hc] at h1 h2 ⊢
    exact absurd (by simp [h1, h2]) hc

/-- Helper: after the delete filter, no row matching the id and owner
remains. -/
theorem deleted_not_in_filter (msgs : List Message) (mid uid : Nat) :
    ∀ m ∈ msgs.filter (fun m => !(m.id == mid && m.user_id == uid)),
      ¬(m.id = mid ∧ m.user_id = uid) := by
  intro m hm hc
  have hp := (List.mem_filter.mp hm).2
  simp [hc.1, hc.2] at hp

/-- C6: after a client-initiated create, update or delete succeeds, the
same client immediately performs a full refetch — its displayed list
becomes exactly the joined render of the post-write server message set
(which contains the written row, respectively no longer contains the
deleted one) — and its cursor is stamped with the local refetch
completion time, without any polling involved. -/
theorem read_your_writes :
    (∀ st session cs text sN fN cN m,
      (createMessage st session text sN).2.2 = CreateResult.created m →
      (sendMessageClient st session cs text sN fN cN).success = true ∧
      m ∈ (sendMessageClient st session cs text sN fN cN).server.messages ∧
      (sendMessageClient st session cs text sN fN cN).client.displayed =
        displayMessages
          ((sendMessageClient st session cs text sN fN cN).server.messages.map
            (toView (sendMessageClient st session cs text sN fN cN).server.users)) ∧
      (sendMessageClient st session cs text sN fN cN).client.cursor = some cN) ∧
    (∀ st session cs mid rawText sN fN cN,
      (updateMessage st session mid (jsTrim rawText) sN).2.2 =
        UpdateResult.updated →
      jsTrim rawText ≠ "" →
      (saveUpdatedMessageClient st session cs mid rawText sN fN cN).success =
        true ∧
      (∀ m ∈ (saveUpdatedMessageClient st session cs mid rawText sN fN
          cN).server.messages,
        m.id = mid → m.user_id = session.userId.getD 0 →
          m.text = jsTrim rawText) ∧
      (saveUpdatedMessageClient st session cs mid rawText sN fN
          cN).client.displayed =
        displayMessages
          ((saveUpdatedMessageClient st session cs mid rawText sN fN
              cN).server.messages.map
            (toView (saveUpdatedMessageClient st session cs mid rawText sN fN
              cN).server.users)) ∧
      (saveUpdatedMessageClient st session cs mid rawText sN fN
          cN).client.cursor = some cN) ∧
    (∀ st session cs mid sN fN cN,
      (deleteMessage st session mid sN).2.2 = DeleteResult.deleted →
      (deleteMessageClient st session cs mid sN fN cN).success = true ∧
      (∀ m ∈ (deleteMessageClient st session cs mid sN fN cN).server.messages,
        ¬(m.id = mid ∧ m.user_id = session.userId.getD 0)) ∧
      (deleteMessageClient st session cs mid sN fN cN).client.displayed =
        displayMessages
          ((deleteMessageClient st session cs mid sN fN cN).server.messages.map
            (toView (deleteMessageClient st session cs mid sN fN
              cN).server.users)) ∧
      (deleteMessageClient st session cs mid sN fN cN).client.cursor =
        some cN) := by
  refine ⟨?_, ?_, ?_⟩
  · intro st session cs text sN fN cN m h
    obtain ⟨hauth, hm, heq⟩ := createMessage_created st session text sN m h
    unfold sendMessageClient
    rw [heq]
    refine ⟨rfl, ?_, ?_, ?_⟩
    · simp
    · simp [fetchMessagesClient_authed, hauth]
    · simp [fetchMessagesClient_authed, hauth]
  · intro st session cs mid rawText sN fN cN h hne
    obtain ⟨hauth, hv, heq⟩ :=
      updateMessage_updated st session mid (jsTrim rawText) sN h
    unfold saveUpdatedMessageClient
    rw [if_neg hne, heq]
    refine ⟨rfl, ?_, ?_, ?_⟩
    · intro m hm h1 h2
      exact updated_text_in_map st.messages mid (session.userId.getD 0)
        (jsTrim rawText) m hm h1 h2
    · simp [fetchMessagesClient_authed, hauth]
    · simp [fetchMessagesClient_authed, hauth]
  · intro st session cs mid sN fN cN h
    obtain ⟨hauth, heq⟩ := deleteMessage_deleted st session mid sN h
    unfold deleteMessageClient
    rw [heq]
    refine ⟨rfl, ?_, ?_, ?_⟩
    · intro m hm
      exact deleted_not_in_filter st.messages mid (session.userId.getD 0) m hm
    · simp [fetchMessagesClient_authed, hauth]
    · simp [fetchMessagesClient_authed, hauth]

theorem read_your_writes_witness :
    (createMessage exState aliceSession "hi" 30).2.2 =
      CreateResult.created
        { id := 3, text := "hi", user_id := 1, createdAt := 30 } ∧
    (sendMessageClient exState aliceSession exClient "hi" 30 31 32).success =
      true ∧
    { id := 3, text := "hi", user_id := 1, createdAt := 30 } ∈
      (sendMessageClient exState aliceSession exClient "hi" 30 31
        32).server.messages ∧
    (sendMessageClient exState aliceSession exClient "hi" 30 31
      32).client.cursor = some 32 :=
  ⟨by decide,
   (read_your_writes.1 exState aliceSession exClient "hi" 30 31 32
     { id := 3, text := "hi", user_id := 1, createdAt := 30 } (by decide)).1,
   (read_your_writes.1 exState aliceSession exClient "hi" 30 31 32
     { id := 3, text := "hi", user_id := 1, createdAt := 30 } (by decide)).2.1,
   (read_your_writes.1 exState aliceSession exClient "hi" 30 31 32
     { id := 3, text := "hi", user_id := 1, createdAt := 30 }
     (by decide)).2.2.2⟩

/-- Helper: leadsWith recognises exactly the lists that start with the
pattern. -/
theorem leadsWith_iff (q : List Char) :
    ∀ hay, leadsWith q hay = true ↔ ∃ r, hay = q ++ r := by
  induction q with
  | nil => intro hay; simp [leadsWith]
  | cons a as ih =>
    intro hay
    cases hay with
    | nil => simp [leadsWith]
    | cons b bs =>
      simp only [leadsWith, Bool.and_eq_true, beq_iff_eq, ih bs]
      constructor
      · rintro ⟨rfl, r, rfl⟩
        exact ⟨r, rfl⟩
      · rintro ⟨r, heq⟩
        injection heq with h1 h2
        exact ⟨h1.symm, r, h2⟩

/-- Helper: occursIn recognises exactly the lists containing the pattern
as a contiguous run. -/
theorem occursIn_iff (q : List Char) :
    ∀ hay, occursIn q hay = true ↔ ∃ l r, hay = l ++ q ++ r := by
  intro hay
  induction hay with
  | nil =>
    simp only [occursIn, List.isEmpty_iff]
    constructor
    · rintro rfl
      exact ⟨[], [], rfl⟩
    · rintro ⟨l, r, h⟩
      have h' := h.symm
      simp only [List.append_eq_nil] at h'
      exact h'.1.2
  | cons c rest ih =>
    simp only [occursIn, Bool.or_eq_true, leadsWith_iff, ih]
    constructor
    · rintro (⟨r, hr⟩ | ⟨l, r, hr⟩)
      · exact ⟨[], r, by simpa using hr⟩
      · exact ⟨c :: l, r, by simp [hr]⟩
    · rintro ⟨l, r, h⟩
      cases l with
      | nil => exact Or.inl ⟨r, by simpa using h⟩
      | cons x xs =>
        injection h with h1 h2
        exact Or.inr ⟨xs, r, h2⟩

/-- Helper: likeContains holds exactly when the case-folded text
contains the case-folded query as a contiguous substring. -/
theorem likeContains_iff (hay q : String) :
    likeContains hay q = true ↔
      ∃ l r, hay.data.map Char.toLower =
        l ++ q.data.map Char.toLower ++ r := by
  unfold likeContains
  exact occursIn_iff _ _

/-- C8 counterexample: a search with non-empty text whose request fails
(here: the session expired, so the endpoint answers 401) falls back to a
full refetch, which moves the client cursor — so a search is not
cursor-neutral in every case. -/
theorem search_error_fallback_moves_cursor_cex :
    ("hello" : String) ≠ "" ∧
    exClient.cursor = some 15 ∧
    (searchMessagesByTextClient exState noSession exClient "hello"
      400 420).2.cursor = some 420 ∧
    (searchMessagesByTextClient exState noSession exClient "hello"
      400 420).2.cursor ≠ exClient.cursor := by
  decide

/-- C8 amended: for non-empty text under a valid session the search
endpoint returns exactly the messages whose text matches LIKE %q% — a
case-insensitive substring match, as likeContains_iff states — in the
same joined shape as the full fetch, the client renders an empty result
as the No-messages-found placeholder, and a search whose request
succeeds leaves the cursor untouched (only the error fallback refetch
moves it). -/
theorem search_filter_shape_cursor :
    (∀ st session q, authFail session = false → q ≠ "" →
      getMessagesByText st session (some q) =
        (st, session,
         .okList ((st.messages.filter
           (fun m => likeContains m.text q)).map (toView st.users)))) ∧
    (∀ hay q, likeContains hay q = true ↔
      ∃ l r, hay.data.map Char.toLower =
        l ++ q.data.map Char.toLower ++ r) ∧
    (∀ users m u, findUser users m.user_id = some u →
      (toView users m).fullName = u.firstName ++ " " ++ u.lastName) ∧
    (∀ st session cs q serverNow clientNow,
      authFail session = false → q ≠ "" →
      (searchMessagesByTextClient st session cs q serverNow
        clientNow).2.cursor = cs.cursor ∧
      (st.messages.filter (fun m => likeContains m.text q) = [] →
        (searchMessagesByTextClient st session cs q serverNow
          clientNow).2.displayed = Rendered.noMessages)) := by
  have hsrv : ∀ st session q, authFail session = false → q ≠ "" →
      getMessagesByText st session (some q) =
        (st, session,
         .okList ((st.messages.filter
           (fun m => likeContains m.text q)).map (toView st.users))) := by
    intro st session q hauth hq
    simp [getMessagesByText, hauth, hq]
  refine ⟨hsrv, likeContains_iff, ?_, ?_⟩
  · intro users m u h
    simp [toView, h]
  · intro st session cs q serverNow clientNow hauth hq
    constructor
    · unfold searchMessagesByTextClient
      rw [hsrv st session q hauth hq]
    · intro hempty
      unfold searchMessagesByTextClient
      rw [hsrv st session q hauth hq, hempty]
      simp [displayMessages]

theorem search_filter_shape_cursor_witness :
    authFail aliceSession = false ∧
    ("zzz" : String) ≠ "" ∧
    (searchMessagesByTextClient exState aliceSession exClient "zzz"
      400 420).2.cursor = exClient.cursor ∧
    exState.messages.filter (fun m => likeContains m.text "zzz") = [] ∧
    (searchMessagesByTextClient exState aliceSession exClient "zzz"
      400 420).2.displayed = Rendered.noMessages :=
  ⟨by decide, by decide,
   (search_filter_shape_cursor.2.2.2 exState aliceSession exClient "zzz"
     400 420 (by decide) (by decide)).1,
   by decide,
   (search_filter_shape_cursor.2.2.2 exState aliceSession exClient "zzz"
     400 420 (by decide) (by decide)).2 (by decide)⟩

end Chatroom
